import Mathlib

/-!
Verification of the RUNE system's rules logic.

The development below is a shallow embedding of the `RuneActor` methods of
the RUNE virtual-tabletop plugin (`rollCheck`, `rollAttack`, `applyDamage`,
`healStamina`, `prepareDerivedData`) together with the pieces of the data
model they touch.  Die rolls are modelled by passing the rolled pool
explicitly (the host's `Roll` evaluator is an injected randomness source);
document updates and chat messages are modelled by returning the updated
state and the message payload.  JS numbers appearing here are integers in
the source's data model, so they are embedded as `Int`.
-/

namespace Rune

/-- Models the dice-pool size `numDice = 2 + Math.abs(advantage)` computed by
both `rollCheck` and `rollAttack`. -/
def numDice (advantage : Int) : Nat := 2 + advantage.natAbs

/-- Models `results.map(r => r.result).sort((a, b) => b - a)`: the rolled pool
sorted in descending order. -/
def sortDesc (rolls : List Int) : List Int := rolls.insertionSort (· ≥ ·)

/-- Models the dice-selection policy of `rollCheck` and `rollAttack`:
`slice(0, 2)` of the descending-sorted pool under advantage, `slice(-2)`
under disadvantage, and `slice(0, 2)` (the whole two-die pool) otherwise.
JS `slice(-2)` on a list of length `n` keeps the elements from index
`n - 2` on, which is `List.drop (n - 2)`. -/
def selectDice (advantage : Int) (sorted : List Int) : List Int :=
  if advantage > 0 then sorted.take 2
  else if advantage < 0 then sorted.drop (sorted.length - 2)
  else sorted.take 2

/-- Models the JS idiom `v || 0` applied to a possibly-absent numeric field:
`undefined` and `0` are falsy and give `0`, any other number passes through. -/
def orZero (v : Option Int) : Int :=
  match v with
  | some x => if x = 0 then 0 else x
  | none => 0

/-- Models `this.system.approaches[approach] || 0`: the approach map is a
partial map from names to scores, and an absent entry contributes `0`. -/
def approachValueOf (approaches : String → Option Int) (approach : String) : Int :=
  orZero (approaches approach)

/-- Outcome tiers of a difficulty check, as produced by `rollCheck`. -/
inductive Outcome where
  | glory
  | ruin
  | success
  | complication
  | failure
  deriving DecidableEq, Repr

/-- Models the outcome-classification chain of `rollCheck`: `isGlory` when
both selected dice read 6, `isRuin` when both read 1, then the `total`
thresholds, first match winning. -/
def classifyCheck (selectedDice : List Int) (total : Int) : Outcome :=
  if selectedDice.getD 0 0 = 6 ∧ selectedDice.getD 1 0 = 6 then .glory
  else if selectedDice.getD 0 0 = 1 ∧ selectedDice.getD 1 0 = 1 then .ruin
  else if total ≥ 10 then .success
  else if total ≥ 6 then .complication
  else .failure

/-- Result record of `rollCheck`: the data the method computes and renders
into its chat message. -/
structure CheckResult where
  sortedDice : List Int
  selectedDice : List Int
  total : Int
  outcome : Outcome
  deriving DecidableEq, Repr

/-- Models `RuneActor.rollCheck(approach, advantage)`.  The rolled pool
`rolls` stands for the evaluated `` `${numDice}d6` `` roll; a conforming die
roller supplies `numDice advantage` values, each in `[1, 6]`. -/
def rollCheck (approaches : String → Option Int) (approach : String)
    (advantage : Int) (rolls : List Int) : CheckResult :=
  let approachValue := approachValueOf approaches approach
  let sorted := sortDesc rolls
  let selected := selectDice advantage sorted
  let diceTotal := selected.foldl (fun sum die => sum + die) 0
  let total := diceTotal + approachValue
  { sortedDice := sorted
    selectedDice := selected
    total := total
    outcome := classifyCheck selected total }

/-- Outcome tiers of an attack roll against a target, as produced by
`rollAttack`. -/
inductive AttackOutcome where
  | glory
  | ruin
  | hit
  | blocked
  | miss
  deriving DecidableEq, Repr

/-- Models the attack-outcome chain of `rollAttack` when a target is
present: Glory/Ruin doubles first, then comparison of the attack total with
the target's resistance. -/
def classifyAttack (selectedDice : List Int) (attackTotal resistance : Int) :
    AttackOutcome :=
  if selectedDice.getD 0 0 = 6 ∧ selectedDice.getD 1 0 = 6 then .glory
  else if selectedDice.getD 0 0 = 1 ∧ selectedDice.getD 1 0 = 1 then .ruin
  else if attackTotal > resistance then .hit
  else if attackTotal = resistance then .blocked
  else .miss

/-- The target-facing fields of a target actor's system data used by
`rollAttack`: `target.system.armor` and `target.system.magicResist`. -/
structure TargetSystem where
  armor : Int
  magicResist : Int
  deriving DecidableEq, Repr

/-- The target-dependent part of an attack result: resistance looked up on
the target, derived damage, and the attack outcome. -/
structure TargetAttackResult where
  resistance : Int
  damage : Int
  outcome : AttackOutcome
  deriving DecidableEq, Repr

/-- Result record of `rollAttack`: the roll data always present, and the
target block only when a target was supplied (`if (target) { ... }`). -/
structure AttackResult where
  sortedDice : List Int
  selectedDice : List Int
  attackTotal : Int
  targetResult : Option TargetAttackResult
  deriving DecidableEq, Repr

/-- Models `RuneActor.rollAttack(approach, target, isMagic, advantage)`.
The pool, selection and total are computed exactly as in `rollCheck`; the
resistance/outcome/damage block is produced only when a target is given. -/
def rollAttack (approaches : String → Option Int) (approach : String)
    (target : Option TargetSystem) (isMagic : Bool) (advantage : Int)
    (rolls : List Int) : AttackResult :=
  let approachValue := approachValueOf approaches approach
  let sorted := sortDesc rolls
  let selected := selectDice advantage sorted
  let diceTotal := selected.foldl (fun sum die => sum + die) 0
  let attackTotal := diceTotal + approachValue
  { sortedDice := sorted
    selectedDice := selected
    attackTotal := attackTotal
    targetResult := target.map (fun t =>
      let resistance := if isMagic then t.magicResist else t.armor
      { resistance := resistance
        damage := max 0 (attackTotal - resistance)
        outcome := classifyAttack selected attackTotal resistance }) }

/-- The slice of an actor's system data read and written by `applyDamage`,
`healStamina` and `prepareDerivedData`. -/
structure ActorState where
  staminaValue : Int
  staminaMax : Int
  armor : Int
  magicResist : Int
  deriving DecidableEq, Repr

/-- Payload of the chat message `applyDamage` always creates. -/
structure DamageMessage where
  damage : Int
  fromStamina : Int
  toStamina : Int
  isLethal : Bool
  deriving DecidableEq, Repr

/-- Models `RuneActor.applyDamage(damage)`: clamp the new stamina at 0,
update the actor, and report lethality (`newStamina === 0`) in the chat
message. -/
def applyDamage (st : ActorState) (damage : Int) : ActorState × DamageMessage :=
  let currentStamina := st.staminaValue
  let newStamina := max 0 (currentStamina - damage)
  ({ st with staminaValue := newStamina },
   { damage := damage
     fromStamina := currentStamina
     toStamina := newStamina
     isLethal := newStamina == 0 })

/-- Payload of the chat message `healStamina` creates when any healing
actually happens. -/
structure HealMessage where
  healing : Int
  fromStamina : Int
  toStamina : Int
  deriving DecidableEq, Repr

/-- Models `RuneActor.healStamina(amount)`: cap the new stamina at the
maximum, and perform the update and chat message only when
`actualHealing > 0`. -/
def healStamina (st : ActorState) (amount : Int) :
    ActorState × Option HealMessage :=
  let currentStamina := st.staminaValue
  let maxStamina := st.staminaMax
  let newStamina := min maxStamina (currentStamina + amount)
  let actualHealing := newStamina - currentStamina
  if actualHealing > 0 then
    ({ st with staminaValue := newStamina },
     some { healing := actualHealing
            fromStamina := currentStamina
            toStamina := newStamina })
  else
    (st, none)

/-- The fields of an owned item read by `RuneActor.prepareDerivedData`:
the item's type tag, its `equipped` flag, and its possibly-absent armor and
magic-resist values (absent on non-armor item subtypes). -/
structure ItemState where
  itemType : String
  equipped : Bool
  armorValue : Option Int
  magicResistValue : Option Int
  deriving DecidableEq, Repr

/-- Models the `this.items.forEach` accumulation of
`RuneActor.prepareDerivedData`: sum `armorValue || 0` and
`magicResistValue || 0` over items of type `"armor"` that are equipped. -/
def aggregateEquippedArmor (items : List ItemState) : Int × Int :=
  items.foldl
    (fun totals item =>
      if item.itemType = "armor" ∧ item.equipped then
        (totals.1 + orZero item.armorValue, totals.2 + orZero item.magicResistValue)
      else totals)
    (0, 0)

/-- Models `RuneActor.prepareDerivedData()`: aggregate equipped armor, then
store it clamped to 3 (`Math.min(total, 3)`) for actors of type
`"character"`, unclamped for every other actor type. -/
def prepareDerivedData (actorType : String) (items : List ItemState)
    (st : ActorState) : ActorState :=
  let totals := aggregateEquippedArmor items
  if actorType = "character" then
    { st with armor := min totals.1 3, magicResist := min totals.2 3 }
  else
    { st with armor := totals.1, magicResist := totals.2 }

/-- Models `Math.clamp(this.stamina.value, 0, this.stamina.max)` from
`ActorDataModel.prepareDerivedData`: the derived stamina value is clamped
into `[0, max]` before any of the methods above read it. -/
def clampStamina (value maxValue : Int) : Int := min (max value 0) maxValue

/-! Basic facts about the sorting and selection helpers. -/

lemma sortDesc_perm (l : List Int) : List.Perm (sortDesc l) l :=
  List.perm_insertionSort _ l

lemma sortDesc_sorted (l : List Int) : List.Sorted (· ≥ ·) (sortDesc l) :=
  List.sorted_insertionSort _ l

lemma sortDesc_length (l : List Int) : (sortDesc l).length = l.length :=
  (sortDesc_perm l).length_eq

lemma two_le_numDice (advantage : Int) : 2 ≤ numDice advantage :=
  Nat.le_add_right 2 _

lemma length_selectDice (advantage : Int) (sorted : List Int)
    (h : 2 ≤ sorted.length) : (selectDice advantage sorted).length = 2 := by
  unfold selectDice
  split_ifs <;> simp [List.length_take, List.length_drop] <;> omega

lemma clampStamina_nonneg (value maxValue : Int) (h : 0 ≤ maxValue) :
    0 ≤ clampStamina value maxValue ∧ clampStamina value maxValue ≤ maxValue := by
  unfold clampStamina
  omega

/-! Case analyses of the two outcome-classification chains. -/

lemma classifyCheck_cases (d0 d1 t : Int) :
    (d0 = 6 ∧ d1 = 6 → classifyCheck [d0, d1] t = Outcome.glory) ∧
    (¬(d0 = 6 ∧ d1 = 6) → d0 = 1 ∧ d1 = 1 → classifyCheck [d0, d1] t = Outcome.ruin) ∧
    (¬(d0 = 6 ∧ d1 = 6) → ¬(d0 = 1 ∧ d1 = 1) → 10 ≤ t →
      classifyCheck [d0, d1] t = Outcome.success) ∧
    (¬(d0 = 6 ∧ d1 = 6) → ¬(d0 = 1 ∧ d1 = 1) → 6 ≤ t → t < 10 →
      classifyCheck [d0, d1] t = Outcome.complication) ∧
    (¬(d0 = 6 ∧ d1 = 6) → ¬(d0 = 1 ∧ d1 = 1) → t < 6 →
      classifyCheck [d0, d1] t = Outcome.failure) := by
  have hd0 : ([d0, d1] : List Int).getD 0 0 = d0 := rfl
  have hd1 : ([d0, d1] : List Int).getD 1 0 = d1 := rfl
  unfold classifyCheck
  rw [hd0, hd1]
  refine ⟨fun h => by rw [if_pos h],
          fun hg hr => by rw [if_neg hg, if_pos hr],
          fun hg hr ht => by rw [if_neg hg, if_neg hr, if_pos (by omega : t ≥ 10)],
          fun hg hr h6 h10 => by
            rw [if_neg hg, if_neg hr, if_neg (by omega : ¬ t ≥ 10),
              if_pos (by omega : t ≥ 6)],
          fun hg hr ht => by
            rw [if_neg hg, if_neg hr, if_neg (by omega : ¬ t ≥ 10),
              if_neg (by omega : ¬ t ≥ 6)]⟩

lemma classifyAttack_cases (d0 d1 t r : Int) :
    (d0 = 6 ∧ d1 = 6 → classifyAttack [d0, d1] t r = AttackOutcome.glory) ∧
    (¬(d0 = 6 ∧ d1 = 6) → d0 = 1 ∧ d1 = 1 →
      classifyAttack [d0, d1] t r = AttackOutcome.ruin) ∧
    (¬(d0 = 6 ∧ d1 = 6) → ¬(d0 = 1 ∧ d1 = 1) → r < t →
      classifyAttack [d0, d1] t r = AttackOutcome.hit) ∧
    (¬(d0 = 6 ∧ d1 = 6) → ¬(d0 = 1 ∧ d1 = 1) → t = r →
      classifyAttack [d0, d1] t r = AttackOutcome.blocked) ∧
    (¬(d0 = 6 ∧ d1 = 6) → ¬(d0 = 1 ∧ d1 = 1) → t < r →
      classifyAttack [d0, d1] t r = AttackOutcome.miss) := by
  have hd0 : ([d0, d1] : List Int).getD 0 0 = d0 := rfl
  have hd1 : ([d0, d1] : List Int).getD 1 0 = d1 := rfl
  unfold classifyAttack
  rw [hd0, hd1]
  refine ⟨fun h => by rw [if_pos h],
          fun hg hr => by rw [if_neg hg, if_pos hr],
          fun hg hr ht => by rw [if_neg hg, if_neg hr, if_pos (by omega : t > r)],
          fun hg hr ht => by
            rw [if_neg hg, if_neg hr, if_neg (by omega : ¬ t > r), if_pos ht],
          fun hg hr ht => by
            rw [if_neg hg, if_neg hr, if_neg (by omega : ¬ t > r),
              if_neg (by omega : ¬ t = r)]⟩

/-! Branch lemmas for healStamina. -/

lemma healStamina_pos_branch (st : ActorState) (amount : Int)
    (h : 0 < min st.staminaMax (st.staminaValue + amount) - st.staminaValue) :
    healStamina st amount =
      ({ st with staminaValue := min st.staminaMax (st.staminaValue + amount) },
       some { healing := min st.staminaMax (st.staminaValue + amount) - st.staminaValue
              fromStamina := st.staminaValue
              toStamina := min st.staminaMax (st.staminaValue + amount) }) := by
  simp only [healStamina]
  rw [if_pos h]

lemma healStamina_nonpos_branch (st : ActorState) (amount : Int)
    (h : ¬ 0 < min st.staminaMax (st.staminaValue + amount) - st.staminaValue) :
    healStamina st amount = (st, none) := by
  simp only [healStamina]
  rw [if_neg h]

/-- Claim C6: for every currentStamina and amount, `applyDamage` sets stamina
to `max 0 (currentStamina - amount)` and reports `isLethal` exactly when the
new stamina equals 0; in particular, for the non-negative stamina values the
data model maintains (`clampStamina`), zero damage leaves stamina unchanged. -/
theorem applyDamage_spec (st : ActorState) (amount : Int) :
    (applyDamage st amount).1.staminaValue = max 0 (st.staminaValue - amount) ∧
    ((applyDamage st amount).2.isLethal = true ↔
      (applyDamage st amount).1.staminaValue = 0) ∧
    (0 ≤ st.staminaValue →
      (applyDamage st 0).1.staminaValue = st.staminaValue) := by
  refine ⟨rfl, ?_, fun h => ?_⟩
  · show (max 0 (st.staminaValue - amount) == 0) = true ↔
      max 0 (st.staminaValue - amount) = 0
    simp
  · show max 0 (st.staminaValue - 0) = st.staminaValue
    omega

/-- Witness for C6: an actor at 5 stamina takes 0 damage and stays at 5. -/
theorem applyDamage_spec_witness :
    (applyDamage { staminaValue := 5, staminaMax := 10, armor := 0, magicResist := 0 }
      0).1.staminaValue = 5 :=
  (applyDamage_spec
    { staminaValue := 5, staminaMax := 10, armor := 0, magicResist := 0 } 0).2.2
    (by decide)

/-- Claim C8: an attack roll with no target carries only the rolled dice, the
selected dice and the attack total, computed as in a check; no outcome tier
and no damage block is produced. -/
theorem rollAttack_no_target (approaches : String → Option Int) (approach : String)
    (isMagic : Bool) (advantage : Int) (rolls : List Int) :
    (rollAttack approaches approach none isMagic advantage rolls).targetResult = none ∧
    (rollAttack approaches approach none isMagic advantage rolls).sortedDice =
      (rollCheck approaches approach advantage rolls).sortedDice ∧
    (rollAttack approaches approach none isMagic advantage rolls).selectedDice =
      (rollCheck approaches approach advantage rolls).selectedDice ∧
    (rollAttack approaches approach none isMagic advantage rolls).attackTotal =
      (rollCheck approaches approach advantage rolls).total :=
  ⟨rfl, rfl, rfl, rfl⟩

/-- Claim C4: with a target present, damage is `max 0 (attackTotal - resistance)`
for every roll — hence never negative — and the formula does not depend on the
outcome tier. -/
theorem rollAttack_damage_formula (approaches : String → Option Int)
    (approach : String) (t : TargetSystem) (isMagic : Bool) (advantage : Int)
    (rolls : List Int) :
    (rollAttack approaches approach (some t) isMagic advantage rolls).targetResult.map
        (fun tr => tr.damage) =
      some (max 0
        ((rollAttack approaches approach (some t) isMagic advantage rolls).attackTotal -
          (if isMagic then t.magicResist else t.armor))) ∧
    0 ≤ ((rollAttack approaches approach (some t) isMagic advantage rolls).targetResult.map
        (fun tr => tr.damage)).getD 0 := by
  refine ⟨rfl, ?_⟩
  show 0 ≤ max 0
    ((rollAttack approaches approach (some t) isMagic advantage rolls).attackTotal -
      (if isMagic then t.magicResist else t.armor))
  exact le_max_left 0 _

/-- Claim C10: an approach name with no defined score contributes a flat
modifier of 0, and the roll still goes through the normal selection and
classification pipeline (both for checks and for attacks). -/
theorem unknown_approach_modifier_zero (approaches : String → Option Int)
    (approach : String) (advantage : Int) (rolls : List Int)
    (target : Option TargetSystem) (isMagic : Bool)
    (h : approaches approach = none) :
    approachValueOf approaches approach = 0 ∧
    (rollCheck approaches approach advantage rolls).total =
      (rollCheck approaches approach advantage rolls).selectedDice.foldl
        (fun sum die => sum + die) 0 ∧
    (rollCheck approaches approach advantage rolls).selectedDice =
      selectDice advantage (sortDesc rolls) ∧
    (rollCheck approaches approach advantage rolls).outcome =
      classifyCheck (rollCheck approaches approach advantage rolls).selectedDice
        (rollCheck approaches approach advantage rolls).total ∧
    (rollAttack approaches approach target isMagic advantage rolls).attackTotal =
      (rollCheck approaches approach advantage rolls).total := by
  have hav : approachValueOf approaches approach = 0 := by
    simp [approachValueOf, orZero, h]
  refine ⟨hav, ?_, rfl, rfl, rfl⟩
  show (selectDice advantage (sortDesc rolls)).foldl (fun sum die => sum + die) 0 +
      approachValueOf approaches approach =
    (rollCheck approaches approach advantage rolls).selectedDice.foldl
      (fun sum die => sum + die) 0
  rw [hav, add_zero]
  rfl

/-- Witness for C10: the undefined approach name "flying" contributes a 0
modifier. -/
theorem unknown_approach_modifier_zero_witness :
    approachValueOf (fun _ => none) "flying" = 0 :=
  (unknown_approach_modifier_zero (fun _ => none) "flying" 0 [3, 4] none false rfl).1

/-- Counterexample to C7 as stated: at stamina 5/10, healing by -1 leaves
stamina at 5, while `min maxStamina (currentStamina + amount)` is 4 — the
code skips the update because `actualHealing` is not positive. -/
theorem healStamina_counterexample :
    (healStamina { staminaValue := 5, staminaMax := 10, armor := 0, magicResist := 0 }
      (-1)).1.staminaValue = 5 ∧
    min (10 : Int) (5 + (-1)) = 4 := by
  decide

/-- Claim C7 (amended): for stamina within its maximum and every amount ≥ 0,
`healStamina` sets stamina to `min maxStamina (currentStamina + amount)`,
hence the result never exceeds the maximum; and when `actualHealing` is 0
the state is returned unchanged with no notification. -/
theorem healStamina_spec (st : ActorState) (amount : Int)
    (hcur : st.staminaValue ≤ st.staminaMax) (hamt : 0 ≤ amount) :
    (healStamina st amount).1.staminaValue =
      min st.staminaMax (st.staminaValue + amount) ∧
    (healStamina st amount).1.staminaValue ≤ st.staminaMax ∧
    (min st.staminaMax (st.staminaValue + amount) - st.staminaValue = 0 →
      healStamina st amount = (st, none)) := by
  by_cases h : 0 < min st.staminaMax (st.staminaValue + amount) - st.staminaValue
  · rw [healStamina_pos_branch st amount h]
    refine ⟨rfl, ?_, fun h0 => absurd h0 (by omega)⟩
    show min st.staminaMax (st.staminaValue + amount) ≤ st.staminaMax
    exact min_le_left _ _
  · rw [healStamina_nonpos_branch st amount h]
    refine ⟨?_, hcur, fun _ => rfl⟩
    show st.staminaValue = min st.staminaMax (st.staminaValue + amount)
    omega

/-- Witness for C7 (amended): healing 3 at stamina 5/10 yields stamina 8. -/
theorem healStamina_spec_witness :
    (healStamina { staminaValue := 5, staminaMax := 10, armor := 0, magicResist := 0 }
      3).1.staminaValue = min (10 : Int) (5 + 3) :=
  (healStamina_spec
    { staminaValue := 5, staminaMax := 10, armor := 0, magicResist := 0 } 3
    (by decide) (by decide)).1

/-- Claim C9: whenever the capped new stamina would not exceed the current
one — every negative amount and every call at full stamina included —
`healStamina` returns the state unchanged and no message; and in general it
never decreases stamina and never touches any other actor field. -/
theorem healStamina_noop_frame (st : ActorState) (amount : Int) :
    (min st.staminaMax (st.staminaValue + amount) ≤ st.staminaValue →
      healStamina st amount = (st, none)) ∧
    st.staminaValue ≤ (healStamina st amount).1.staminaValue ∧
    (healStamina st amount).1.staminaMax = st.staminaMax ∧
    (healStamina st amount).1.armor = st.armor ∧
    (healStamina st amount).1.magicResist = st.magicResist := by
  by_cases h : 0 < min st.staminaMax (st.staminaValue + amount) - st.staminaValue
  · rw [healStamina_pos_branch st amount h]
    refine ⟨fun h0 => absurd h0 (by omega), ?_, rfl, rfl, rfl⟩
    show st.staminaValue ≤ min st.staminaMax (st.staminaValue + amount)
    omega
  · rw [healStamina_nonpos_branch st amount h]
    exact ⟨fun _ => rfl, le_refl _, rfl, rfl, rfl⟩

/-- Witness for C9: healing -3 at stamina 5/10 leaves the whole actor state
unchanged and produces no message. -/
theorem healStamina_noop_frame_witness :
    healStamina { staminaValue := 5, staminaMax := 10, armor := 1, magicResist := 2 }
      (-3) =
    ({ staminaValue := 5, staminaMax := 10, armor := 1, magicResist := 2 }, none) :=
  (healStamina_noop_frame
    { staminaValue := 5, staminaMax := 10, armor := 1, magicResist := 2 } (-3)).1
    (by decide)

lemma aggregate_foldl (items : List ItemState) (acc : Int × Int) :
    items.foldl
      (fun totals item =>
        if item.itemType = "armor" ∧ item.equipped then
          (totals.1 + orZero item.armorValue, totals.2 + orZero item.magicResistValue)
        else totals) acc =
    (acc.1 + ((items.filter (fun i => decide (i.itemType = "armor" ∧ i.equipped))).map
        (fun i => orZero i.armorValue)).sum,
     acc.2 + ((items.filter (fun i => decide (i.itemType = "armor" ∧ i.equipped))).map
        (fun i => orZero i.magicResistValue)).sum) := by
  induction items generalizing acc with
  | nil => simp
  | cons i rest ih =>
    by_cases h : i.itemType = "armor" ∧ i.equipped
    · rw [List.foldl_cons, if_pos h, ih,
        List.filter_cons_of_pos (by simpa using h), List.map_cons, List.map_cons,
        List.sum_cons, List.sum_cons]
      simp [add_assoc]
    · rw [List.foldl_cons, if_neg h, ih,
        List.filter_cons_of_neg (by simpa using h)]

lemma aggregateEquippedArmor_eq_sum (items : List ItemState) :
    aggregateEquippedArmor items =
      (((items.filter (fun i => decide (i.itemType = "armor" ∧ i.equipped))).map
          (fun i => orZero i.armorValue)).sum,
       ((items.filter (fun i => decide (i.itemType = "armor" ∧ i.equipped))).map
          (fun i => orZero i.magicResistValue)).sum) := by
  unfold aggregateEquippedArmor
  rw [aggregate_foldl]
  simp

/-- Claim C5: after derived-data preparation, a character-type actor stores
the equipped-armor sums clamped at 3 (so armor and magicResist never exceed
3), while every other actor type stores the raw sums unclamped. -/
theorem prepareDerivedData_armor_clamp (items : List ItemState) (st : ActorState)
    (actorType : String) (hother : actorType ≠ "character") :
    (aggregateEquippedArmor items).1 =
      ((items.filter (fun i => decide (i.itemType = "armor" ∧ i.equipped))).map
        (fun i => orZero i.armorValue)).sum ∧
    (aggregateEquippedArmor items).2 =
      ((items.filter (fun i => decide (i.itemType = "armor" ∧ i.equipped))).map
        (fun i => orZero i.magicResistValue)).sum ∧
    (prepareDerivedData "character" items st).armor =
      min (aggregateEquippedArmor items).1 3 ∧
    (prepareDerivedData "character" items st).magicResist =
      min (aggregateEquippedArmor items).2 3 ∧
    (prepareDerivedData "character" items st).armor ≤ 3 ∧
    (prepareDerivedData "character" items st).magicResist ≤ 3 ∧
    (prepareDerivedData actorType items st).armor =
      (aggregateEquippedArmor items).1 ∧
    (prepareDerivedData actorType items st).magicResist =
      (aggregateEquippedArmor items).2 := by
  have hchar : prepareDerivedData "character" items st =
      { st with armor := min (aggregateEquippedArmor items).1 3,
                magicResist := min (aggregateEquippedArmor items).2 3 } := by
    simp [prepareDerivedData]
  have hoth : prepareDerivedData actorType items st =
      { st with armor := (aggregateEquippedArmor items).1,
                magicResist := (aggregateEquippedArmor items).2 } := by
    simp only [prepareDerivedData]
    rw [if_neg hother]
  rw [hchar, hoth, aggregateEquippedArmor_eq_sum]
  exact ⟨rfl, rfl, rfl, rfl, min_le_right _ 3, min_le_right _ 3, rfl, rfl⟩

/-- Witness for C5: an NPC wearing one equipped armor item of value 5 stores
the raw (unclamped) aggregate. -/
theorem prepareDerivedData_armor_clamp_witness :
    (prepareDerivedData "npc"
      [{ itemType := "armor", equipped := true, armorValue := some 5,
         magicResistValue := some 2 }]
      { staminaValue := 10, staminaMax := 10, armor := 0, magicResist := 0 }).armor =
    (aggregateEquippedArmor
      [{ itemType := "armor", equipped := true, armorValue := some 5,
         magicResistValue := some 2 }]).1 :=
  (prepareDerivedData_armor_clamp
    [{ itemType := "armor", equipped := true, armorValue := some 5,
       magicResistValue := some 2 }]
    { staminaValue := 10, staminaMax := 10, armor := 0, magicResist := 0 }
    "npc" (by decide)).2.2.2.2.2.2.1

/-- Claim C1: a check rolled with a conforming die roller uses a pool of
exactly `2 + |advantageLevel|` dice and selects exactly 2 of them: under
advantage the selected dice dominate every unselected die, under
disadvantage they are dominated by every unselected die, and at advantage 0
the two selected dice are the whole pool. -/
theorem rollCheck_pool_and_selection (approaches : String → Option Int)
    (approach : String) (advantage : Int) (rolls : List Int)
    (_hdie : ∀ r ∈ rolls, 1 ≤ r ∧ r ≤ 6)
    (hlen : rolls.length = numDice advantage) :
    numDice advantage = 2 + advantage.natAbs ∧
    (rollCheck approaches approach advantage rolls).selectedDice.length = 2 ∧
    (0 < advantage →
      List.Perm ((rollCheck approaches approach advantage rolls).selectedDice ++
        (sortDesc rolls).drop 2) rolls ∧
      ∀ x ∈ (rollCheck approaches approach advantage rolls).selectedDice,
        ∀ y ∈ (sortDesc rolls).drop 2, y ≤ x) ∧
    (advantage < 0 →
      List.Perm ((sortDesc rolls).take (rolls.length - 2) ++
        (rollCheck approaches approach advantage rolls).selectedDice) rolls ∧
      ∀ x ∈ (rollCheck approaches approach advantage rolls).selectedDice,
        ∀ y ∈ (sortDesc rolls).take (rolls.length - 2), x ≤ y) ∧
    (advantage = 0 →
      List.Perm (rollCheck approaches approach advantage rolls).selectedDice rolls) := by
  have hsl : (sortDesc rolls).length = rolls.length := sortDesc_length rolls
  have h2 : 2 ≤ rolls.length := by rw [hlen]; exact two_le_numDice advantage
  have hsel : (rollCheck approaches approach advantage rolls).selectedDice =
      selectDice advantage (sortDesc rolls) := rfl
  refine ⟨rfl, ?_, fun hpos => ?_, fun hneg => ?_, fun hzero => ?_⟩
  · rw [hsel]
    exact length_selectDice advantage (sortDesc rolls) (by omega)
  · have hs : selectDice advantage (sortDesc rolls) = (sortDesc rolls).take 2 := by
      simp [selectDice, hpos]
    rw [hsel, hs]
    refine ⟨?_, ?_⟩
    · rw [List.take_append_drop]
      exact sortDesc_perm rolls
    · intro x hx y hy
      exact (sortDesc_sorted rolls).rel_of_mem_take_of_mem_drop hx hy
  · have hs : selectDice advantage (sortDesc rolls) =
        (sortDesc rolls).drop ((sortDesc rolls).length - 2) := by
      have hng : ¬ advantage > 0 := by omega
      simp [selectDice, hng, hneg]
    rw [hsel, hs, hsl]
    refine ⟨?_, ?_⟩
    · rw [List.take_append_drop]
      exact sortDesc_perm rolls
    · intro x hx y hy
      exact (sortDesc_sorted rolls).rel_of_mem_take_of_mem_drop hy hx
  · subst hzero
    have h2' : rolls.length = 2 := by rw [hlen]; rfl
    have hs : selectDice 0 (sortDesc rolls) = (sortDesc rolls).take 2 := by
      simp [selectDice]
    rw [hsel, hs, List.take_of_length_le (by omega : (sortDesc rolls).length ≤ 2)]
    exact sortDesc_perm rolls

/-- Witness for C1: advantage 1 on the pool [6, 3, 1] selects exactly 2 dice. -/
theorem rollCheck_pool_and_selection_witness :
    (rollCheck (fun _ => some 2) "guile" 1 [6, 3, 1]).selectedDice.length = 2 :=
  (rollCheck_pool_and_selection (fun _ => some 2) "guile" 1 [6, 3, 1]
    (by decide) (by decide)).2.1

/-- Claim C2: with selected dice `[d0, d1]`, the total is
`d0 + d1 + baseValue`, and the outcome tier is decided with first match
winning: double six gives Glory, double one gives Ruin (both regardless of
the total), then `total ≥ 10` Success, `6 ≤ total < 10` Complication, and
`total < 6` Failure. -/
theorem rollCheck_outcome_precedence (approaches : String → Option Int)
    (approach : String) (advantage : Int) (rolls : List Int) (d0 d1 : Int)
    (hsel : (rollCheck approaches approach advantage rolls).selectedDice = [d0, d1]) :
    (rollCheck approaches approach advantage rolls).total =
      d0 + d1 + approachValueOf approaches approach ∧
    (d0 = 6 ∧ d1 = 6 →
      (rollCheck approaches approach advantage rolls).outcome = Outcome.glory) ∧
    (¬(d0 = 6 ∧ d1 = 6) → d0 = 1 ∧ d1 = 1 →
      (rollCheck approaches approach advantage rolls).outcome = Outcome.ruin) ∧
    (¬(d0 = 6 ∧ d1 = 6) → ¬(d0 = 1 ∧ d1 = 1) →
      10 ≤ (rollCheck approaches approach advantage rolls).total →
      (rollCheck approaches approach advantage rolls).outcome = Outcome.success) ∧
    (¬(d0 = 6 ∧ d1 = 6) → ¬(d0 = 1 ∧ d1 = 1) →
      6 ≤ (rollCheck approaches approach advantage rolls).total →
      (rollCheck approaches approach advantage rolls).total < 10 →
      (rollCheck approaches approach advantage rolls).outcome = Outcome.complication) ∧
    (¬(d0 = 6 ∧ d1 = 6) → ¬(d0 = 1 ∧ d1 = 1) →
      (rollCheck approaches approach advantage rolls).total < 6 →
      (rollCheck approaches approach advantage rolls).outcome = Outcome.failure) := by
  have htot0 : (rollCheck approaches approach advantage rolls).total =
      ((rollCheck approaches approach advantage rolls).selectedDice).foldl
        (fun sum die => sum + die) 0 + approachValueOf approaches approach := rfl
  rw [hsel] at htot0
  have htot : (rollCheck approaches approach advantage rolls).total =
      d0 + d1 + approachValueOf approaches approach := by
    rw [htot0]
    show 0 + d0 + d1 + approachValueOf approaches approach = _
    omega
  have hout : (rollCheck approaches approach advantage rolls).outcome =
      classifyCheck ((rollCheck approaches approach advantage rolls).selectedDice)
        ((rollCheck approaches approach advantage rolls).total) := rfl
  rw [hsel] at hout
  obtain ⟨c1, c2, c3, c4, c5⟩ :=
    classifyCheck_cases d0 d1 ((rollCheck approaches approach advantage rolls).total)
  exact ⟨htot,
    fun h => hout.trans (c1 h),
    fun hg hr => hout.trans (c2 hg hr),
    fun hg hr ht => hout.trans (c3 hg hr ht),
    fun hg hr h6 h10 => hout.trans (c4 hg hr h6 h10),
    fun hg hr ht => hout.trans (c5 hg hr ht)⟩

/-- Witness for C2: a double six with base value 3 — a total of 15, above the
Success threshold — is still classified Glory. -/
theorem rollCheck_outcome_precedence_witness :
    (rollCheck (fun _ => some 3) "might" 0 [6, 6]).outcome = Outcome.glory :=
  (rollCheck_outcome_precedence (fun _ => some 3) "might" 0 [6, 6] 6 6
    (by decide)).2.1 (by decide)

/-- Claim C3: an attack roll with a target reuses the check's pool, selection
and total, and classifies with Glory/Ruin doubles first, then by comparing
the attack total to the target's resistance: greater is Hit, equal is
Blocked, smaller is Miss. -/
theorem rollAttack_with_target (approaches : String → Option Int)
    (approach : String) (t : TargetSystem) (isMagic : Bool) (advantage : Int)
    (rolls : List Int) (d0 d1 : Int)
    (hsel : (rollAttack approaches approach (some t) isMagic advantage
      rolls).selectedDice = [d0, d1]) :
    (rollAttack approaches approach (some t) isMagic advantage rolls).sortedDice =
      (rollCheck approaches approach advantage rolls).sortedDice ∧
    (rollAttack approaches approach (some t) isMagic advantage rolls).selectedDice =
      (rollCheck approaches approach advantage rolls).selectedDice ∧
    (rollAttack approaches approach (some t) isMagic advantage rolls).attackTotal =
      (rollCheck approaches approach advantage rolls).total ∧
    (rollAttack approaches approach (some t) isMagic advantage rolls).targetResult.map
        (fun tr => tr.resistance) =
      some (if isMagic then t.magicResist else t.armor) ∧
    (d0 = 6 ∧ d1 = 6 →
      (rollAttack approaches approach (some t) isMagic advantage rolls).targetResult.map
        (fun tr => tr.outcome) = some AttackOutcome.glory) ∧
    (¬(d0 = 6 ∧ d1 = 6) → d0 = 1 ∧ d1 = 1 →
      (rollAttack approaches approach (some t) isMagic advantage rolls).targetResult.map
        (fun tr => tr.outcome) = some AttackOutcome.ruin) ∧
    (¬(d0 = 6 ∧ d1 = 6) → ¬(d0 = 1 ∧ d1 = 1) →
      (if isMagic then t.magicResist else t.armor) <
        (rollAttack approaches approach (some t) isMagic advantage rolls).attackTotal →
      (rollAttack approaches approach (some t) isMagic advantage rolls).targetResult.map
        (fun tr => tr.outcome) = some AttackOutcome.hit) ∧
    (¬(d0 = 6 ∧ d1 = 6) → ¬(d0 = 1 ∧ d1 = 1) →
      (rollAttack approaches approach (some t) isMagic advantage rolls).attackTotal =
        (if isMagic then t.magicResist else t.armor) →
      (rollAttack approaches approach (some t) isMagic advantage rolls).targetResult.map
        (fun tr => tr.outcome) = some AttackOutcome.blocked) ∧
    (¬(d0 = 6 ∧ d1 = 6) → ¬(d0 = 1 ∧ d1 = 1) →
      (rollAttack approaches approach (some t) isMagic advantage rolls).attackTotal <
        (if isMagic then t.magicResist else t.armor) →
      (rollAttack approaches approach (some t) isMagic advantage rolls).targetResult.map
        (fun tr => tr.outcome) = some AttackOutcome.miss) := by
  have hout : (rollAttack approaches approach (some t) isMagic advantage
      rolls).targetResult.map (fun tr => tr.outcome) =
    some (classifyAttack
      ((rollAttack approaches approach (some t) isMagic advantage rolls).selectedDice)
      ((rollAttack approaches approach (some t) isMagic advantage rolls).attackTotal)
      (if isMagic then t.magicResist else t.armor)) := rfl
  rw [hsel] at hout
  obtain ⟨c1, c2, c3, c4, c5⟩ := classifyAttack_cases d0 d1
    ((rollAttack approaches approach (some t) isMagic advantage rolls).attackTotal)
    (if isMagic then t.magicResist else t.armor)
  exact ⟨rfl, rfl, rfl, rfl,
    fun h => hout.trans (congrArg some (c1 h)),
    fun hg hr => hout.trans (congrArg some (c2 hg hr)),
    fun hg hr ht => hout.trans (congrArg some (c3 hg hr ht)),
    fun hg hr ht => hout.trans (congrArg some (c4 hg hr ht)),
    fun hg hr ht => hout.trans (congrArg some (c5 hg hr ht))⟩

/-- Witness for C3: the spec's Blocked scenario — base 0 against resistance 6
with rolls [3, 3] gives total 6 and outcome Blocked. -/
theorem rollAttack_with_target_witness :
    (rollAttack (fun _ => some 0) "might" (some { armor := 6, magicResist := 0 })
      false 0 [3, 3]).targetResult.map (fun tr => tr.outcome) =
    some AttackOutcome.blocked :=
  (rollAttack_with_target (fun _ => some 0) "might" { armor := 6, magicResist := 0 }
    false 0 [3, 3] 3 3 (by decide)).2.2.2.2.2.2.2.1 (by decide) (by decide) (by decide)

end Rune
